import Mathlib

/-!
Shallow embedding of `libs/subliminal_patch/providers/opensubtitlescom.py`
(the opensubtitles.com provider: subtitle record with match scoring, and a
provider with login / title search / query / download operations).

HTTP traffic is modelled by passing the outcome of each request (network
failure, or a response with status, reason phrase and parsed body) as an
explicit argument; provider state (token, session headers, credentials,
hash) is passed and returned explicitly.  Python exceptions are modelled by
an explicit exception type, and Python truthiness of optional strings by
`strOptTruthy`.
-/

/-- Python exceptions that the provider code can raise (subliminal's
exception classes, plus the builtin exceptions the code can trigger). -/
inductive PyExc where
  | configurationError (msg : String)
  | authenticationError (msg : String)
  | serviceUnavailable (msg : String)
  | providerError (msg : String)
  | unboundLocalError (varName : String)
  | keyError (key : String)
  | indexError (msg : String)
  | typeError (msg : String)
deriving DecidableEq, Repr

/-- Decidable equality for `Except`, so witnesses and counterexamples can
be checked by evaluation. -/
def exceptDecEq {α β : Type} [DecidableEq α] [DecidableEq β] :
    DecidableEq (Except α β) := fun x y =>
  match x, y with
  | Except.ok a, Except.ok b =>
      if h : a = b then Decidable.isTrue (by rw [h])
      else Decidable.isFalse (fun hh => h (Except.ok.inj hh))
  | Except.error a, Except.error b =>
      if h : a = b then Decidable.isTrue (by rw [h])
      else Decidable.isFalse (fun hh => h (Except.error.inj hh))
  | Except.ok _, Except.error _ => Decidable.isFalse (fun hh => Except.noConfusion hh)
  | Except.error _, Except.ok _ => Decidable.isFalse (fun hh => Except.noConfusion hh)

instance {α β : Type} [DecidableEq α] [DecidableEq β] : DecidableEq (Except α β) :=
  exceptDecEq

/-- Result of `r.json()` on the login response: invalid JSON (`ValueError`),
valid JSON with a `token` field, or valid JSON without one (`KeyError`). -/
inductive LoginJson where
  | invalid
  | withToken (t : String)
  | withoutToken
deriving DecidableEq, Repr

/-- Outcome of the `session.post` in `login`: a network-level failure
(`ConnectionError` / `Timeout` / `ReadTimeout`, so the local `r` is never
bound), or a response with status code, reason phrase and body. -/
inductive NetResult where
  | netError
  | resp (status : Nat) (reason : String) (body : LoginJson)
deriving DecidableEq, Repr

/-- What a Python function body is about to do before any `finally` clause
runs: return a value, or propagate an exception. -/
inductive PendingOutcome where
  | ret (b : Bool)
  | exc (e : PyExc)
deriving DecidableEq, Repr

/-- State after running `login`: the pending control-flow outcome and the
value of `self.token`. -/
structure LoginStep where
  pending : PendingOutcome
  token : Option String
deriving DecidableEq, Repr

/-- The `try`/`except`/`else` part of `OpenSubtitlesComProvider.login`
(source lines 124-142), before the `finally` clause.  `tok` is the value of
`self.token` on entry.
On a network error the handler evaluates `r.status_code` while the local
`r` is unbound (the assignment `r = self.session.post(...)` failed), so in
CPython it raises `UnboundLocalError` before any `ServiceUnavailable` is
constructed.  On status 200 it parses `r.json()` (`ValueError` is caught
and re-raised as a provider error), reads the `token` key (a missing key
raises `KeyError`, which is not caught), caches the token and returns
`True`.  On 401 it raises an authentication error carrying the reason
phrase; on any other status, a provider error naming the status. -/
def loginBody (tok : Option String) : NetResult → LoginStep
  | NetResult.netError =>
      { pending := PendingOutcome.exc (PyExc.unboundLocalError "r"), token := tok }
  | NetResult.resp status reason body =>
      if status = 200 then
        match body with
        | LoginJson.withToken t =>
            { pending := PendingOutcome.ret true, token := some t }
        | LoginJson.invalid =>
            { pending := PendingOutcome.exc (PyExc.providerError "Invalid JSON returned by provider"),
              token := tok }
        | LoginJson.withoutToken =>
            { pending := PendingOutcome.exc (PyExc.keyError "token"), token := tok }
      else if status = 401 then
        { pending := PendingOutcome.exc (PyExc.authenticationError ("Login failed: " ++ reason)),
          token := tok }
      else
        { pending := PendingOutcome.exc (PyExc.providerError ("Bad status code: " ++ toString status)),
          token := tok }

/-- The `finally: return False` clause of `login` (source lines 143-144).
In Python, a `return` executed in a `finally` clause replaces the pending
return value and discards any in-flight exception, so whatever `loginBody`
was about to do, the call returns `False`. -/
def loginFinally (s : LoginStep) : LoginStep :=
  { s with pending := PendingOutcome.ret false }

/-- `OpenSubtitlesComProvider.login`: the `try` statement followed by its
`finally` clause. -/
def login (tok : Option String) (r : NetResult) : LoginStep :=
  loginFinally (loginBody tok r)

/-- One entry of the parsed `data` array of a `search/tv` or `search/movie`
response: `id` plus the `attributes` fields the code reads.  The `year`
attribute is modelled as already numeric (the code applies `int(...)` to
it). -/
structure TitleEntry where
  id : String
  title : String
  year : Int
deriving DecidableEq, Repr

/-- Python `str.lower()`, character by character. -/
def pyLower (s : String) : String :=
  String.mk (s.data.map Char.toLower)

/-- Whether `pat` is a prefix of the first list (over character lists). -/
def charsStartWith : List Char → List Char → Bool
  | _, [] => true
  | [], _ :: _ => false
  | c :: cs, p :: ps => c == p && charsStartWith cs ps

/-- Whether `pat` occurs as a contiguous run of the first list. -/
def charsContain : List Char → List Char → Bool
  | [], pat => pat.isEmpty
  | c :: rest, pat => charsStartWith (c :: rest) pat || charsContain rest pat

/-- The loop condition of `search_titles` (source line 163-164):
case-insensitive title equality and exact year equality.  `videoYear` is
`video.year`, which may be absent (`None`), in which case the Python
comparison `video.year == int(...)` is false. -/
def titleYearMatch (title : String) (videoYear : Option Int) (e : TitleEntry) : Bool :=
  pyLower title == pyLower e.title && videoYear == some e.year

/-- The `for result in results_dict:` loop of `search_titles` with its
`break`: the id of the first entry satisfying `titleYearMatch`, if any. -/
def searchLoop (title : String) (videoYear : Option Int) : List TitleEntry → Option String
  | [] => none
  | e :: rest =>
      if titleYearMatch title videoYear e then some e.id
      else searchLoop title videoYear rest

/-- Python truthiness of an optional string (`None` and `""` are falsy). -/
def strOptTruthy : Option String → Bool
  | none => false
  | some s => s != ""

/-- `OpenSubtitlesComProvider.search_titles` (source lines 146-172), given
the parsed `data` array of a 2xx response.  The code returns `title_id`
only when it is truthy (`if title_id:`).  On every falsy path — `title_id`
never assigned, or assigned the empty string — the `finally` clause runs
`logger.debug('No match found for "%s" and "%d"' % (title, video.year))`,
and the `%d` conversion raises `TypeError` when `video.year` is `None`;
that exception replaces the pending implicit `None` return and propagates
to the caller.  When `video.year` is a number the logging succeeds and the
function returns `None`. -/
def search_titles (title : String) (videoYear : Option Int) (data : List TitleEntry) :
    Except PyExc (Option String) :=
  let title_id := searchLoop title videoYear data
  if strOptTruthy title_id then Except.ok title_id
  else
    match videoYear with
    | none => Except.error (PyExc.typeError "%d format: a number is required, not NoneType")
    | some _ => Except.ok none

/-- A video supplied by the framework (`subliminal.Episode` or
`subliminal.Movie`): the fields this module reads.  Optional numeric fields
model Python `None`; string fields model possibly-empty/None strings, with
Python truthiness given by non-emptiness. -/
inductive Video where
  | episode (series : String) (year season episodeNum : Option Int)
      (release_group resolution src : String)
  | movie (title : String) (year : Option Int)
      (release_group resolution src : String)
deriving DecidableEq, Repr

/-- `video.year`. -/
def Video.year : Video → Option Int
  | Video.episode _ y _ _ _ _ _ => y
  | Video.movie _ y _ _ _ => y

/-- `video.season` (read only on episodes). -/
def Video.season : Video → Option Int
  | Video.episode _ _ s _ _ _ _ => s
  | Video.movie _ _ _ _ _ => none

/-- `video.episode` (read only on episodes). -/
def Video.episodeNum : Video → Option Int
  | Video.episode _ _ _ e _ _ _ => e
  | Video.movie _ _ _ _ _ => none

/-- `video.release_group`. -/
def Video.release_group : Video → String
  | Video.episode _ _ _ _ rg _ _ => rg
  | Video.movie _ _ rg _ _ => rg

/-- `video.resolution`. -/
def Video.resolution : Video → String
  | Video.episode _ _ _ _ _ r _ => r
  | Video.movie _ _ _ r _ => r

/-- `video.source`. -/
def Video.src : Video → String
  | Video.episode _ _ _ _ _ _ s => s
  | Video.movie _ _ _ _ s => s

/-- `isinstance(video, Episode)`. -/
def Video.isEpisode : Video → Bool
  | Video.episode _ _ _ _ _ _ _ => true
  | Video.movie _ _ _ _ _ => false

/-- The title used by `query` (source lines 178-181): `video.series` for an
episode, `video.title` for a movie. -/
def Video.queryTitle : Video → String
  | Video.episode s _ _ _ _ _ _ => s
  | Video.movie t _ _ _ _ => t

/-- Python's substring test `needle in hay` on strings (empty needle is
contained in everything). -/
def strContains (hay needle : String) : Bool :=
  charsContain hay.data needle.data

/-- Modelled from the spec: subliminal's `sanitize_release_group` (imported
from `subliminal.utils`, not under src/) — "normalizing both sides";
modelled as lower-casing. -/
def sanitize_release_group (s : String) : String :=
  pyLower s

/-- Modelled from the spec: subliminal's `get_equivalent_release_groups`
(imported from `subliminal.score`, not under src/) — "any equivalent group
name"; modelled as the singleton equivalence class. -/
def get_equivalent_release_groups (g : String) : List String :=
  [g]

/-- Modelled from the spec: `guess_matches` composed with `guessit`
(imported from `subliminal_patch.subtitle` / `guessit`, not under src/) —
"any additional matches inferred by guessing structured fields (resolution,
codec, etc.) out of the free-text release string".  It contributes only
format tags inferred from the release string, never the identity tags
series / title / year / season / episode. -/
def guess_matches (v : Video) (releases : String) : Finset String :=
  let m : Finset String := ∅
  let m := if v.resolution != "" && strContains (pyLower releases) v.resolution then
      insert "resolution" m else m
  if v.src != "" && strContains (pyLower releases) (pyLower v.src) then
    insert "source" m else m

/-- `OpenSubtitlesComSubtitle` (source lines 22-41): one subtitle search
result.  `language` is the IETF tag; `matches`, `download_link` and
`content` start unset and are populated by scoring / download. -/
structure OpenSubtitlesComSubtitle where
  title : String
  year : Option Int
  season : Option Int
  episodeNum : Option Int
  releases : String
  release_info : String
  language : String
  hearing_impaired : Bool
  file_id : String
  page_link : String
  download_link : Option String
  uploader : String
  matchesSet : Option (Finset String)
  hash : Option String
  encoding : String
  content : Option String
deriving DecidableEq

/-- `OpenSubtitlesComSubtitle.get_matches` (source lines 48-90): the set of
tags on which the subtitle agrees with the video.  Episode branch adds
`series` unconditionally and `year` / `season` / `episode` on equality;
movie branch adds `title` unconditionally and `year` on equality; both then
add `release_group` / `resolution` / `source` on the guarded substring
checks of lines 74-84 and union the guessed matches of line 86. -/
def get_matches (s : OpenSubtitlesComSubtitle) (v : Video) : Finset String :=
  let m0 : Finset String :=
    match v with
    | Video.episode _ y se ep _ _ _ =>
        let m : Finset String := {"series"}
        let m := if y = s.year then insert "year" m else m
        let m := if se = s.season then insert "season" m else m
        if ep = s.episodeNum then insert "episode" m else m
    | Video.movie _ y _ _ _ =>
        let m : Finset String := {"title"}
        if y = s.year then insert "year" m else m
  let m1 :=
    if v.release_group != "" && s.releases != "" &&
        (get_equivalent_release_groups (sanitize_release_group v.release_group)).any
          (fun r => strContains (sanitize_release_group s.releases) r) then
      insert "release_group" m0
    else m0
  let m2 :=
    if v.resolution != "" && s.releases != "" && strContains (pyLower s.releases) v.resolution then
      insert "resolution" m1
    else m1
  let m3 :=
    if v.src != "" && s.releases != "" && strContains (pyLower s.releases) (pyLower v.src) then
      insert "source" m2
    else m2
  m3 ∪ guess_matches v s.releases

/-- Modelled from the spec: subliminal's `fix_line_ending` (imported from
`subliminal.subtitle`, not under src/) — "normalizes line endings";
modelled as replacing CRLF by LF, left to right. -/
def crlfToLf : List Char → List Char
  | [] => []
  | c :: rest =>
      match c, rest with
      | cr, lf :: tl =>
          if cr == Char.ofNat 13 && lf == Char.ofNat 10 then Char.ofNat 10 :: crlfToLf tl
          else cr :: crlfToLf (lf :: tl)
      | cr, [] => [cr]

/-- Modelled from the spec: CRLF normalization applied to a whole string. -/
def fix_line_ending (s : String) : String :=
  String.mk (crlfToLf s.data)

/-- `OpenSubtitlesComProvider.download_subtitle` (source lines 226-243) on
the happy HTTP path: `link` is the one-time download URL extracted from the
download response, `body` the bytes fetched from it.  Sets
`download_link`, then stores the normalized content only when the body is
non-empty (`if subtitle_content:`); the method has no return value, so the
updated record is the observable outcome. -/
def download_subtitle (sub : OpenSubtitlesComSubtitle) (link : String) (body : String) :
    OpenSubtitlesComSubtitle :=
  let sub1 := { sub with download_link := some link }
  if body != "" then { sub1 with content := some (fix_line_ending body) }
  else sub1

/-- Provider state (source lines 100-110): cached token, the session's
`Authorization` header, credentials, the hash-usage flag and the
last-computed hash.  The session's `User-Agent` header is fixed at
construction and never read by this module, so it is not modelled. -/
structure ProviderState where
  token : Option String
  authHeader : Option String
  username : String
  password : String
  use_hash : Bool
  hash : Option String
deriving DecidableEq, Repr

/-- `OpenSubtitlesComProvider.__init__` (source lines 100-110): raises a
configuration error unless both credentials are truthy
(`if not all((username, password))`), otherwise stores them with an empty
token and hash. -/
def providerInit (username password : Option String) (use_hash : Bool) :
    Except PyExc ProviderState :=
  if strOptTruthy username && strOptTruthy password then
    Except.ok { token := none, authHeader := none,
                username := username.getD "", password := password.getD "",
                use_hash := use_hash, hash := none }
  else
    Except.error (PyExc.configurationError "Username and password must be specified")

/-- `OpenSubtitlesComProvider.initialize` (source lines 112-118): if the
token is truthy, return immediately; otherwise run `login` (which, because
of its `finally` clause, never raises) and set the session's
`Authorization` header from the resulting token.  The returned flag
records whether `login` was called. -/
def initProvider (st : ProviderState) (net : NetResult) : ProviderState × Bool :=
  if strOptTruthy st.token then (st, false)
  else
    let ls := login st.token net
    let st1 := { st with token := ls.token }
    ({ st1 with authHeader := st1.token }, true)

/-- One element of a find response's `files` array. -/
structure FindFile where
  id : String
deriving DecidableEq, Repr

/-- One entry of the parsed `data` array of a `find/tv` or `find/movie`
response: `type` plus the `attributes` fields the code reads. -/
structure FindItem where
  type : String
  language : String
  hearing_impaired : Bool
  url : String
  files : List FindFile
  release : String
  uploaderName : String
  movieName : String
  seasonNumber : Option Int
  episodeNumber : Option Int
deriving DecidableEq, Repr

/-- The subtitle construction and immediate scoring of `query` (source
lines 205-218): builds the record from the entry's attributes — note
`year=video.year`, and `files[0]` raises `IndexError` when the `files`
array is empty — then `subtitle.get_matches(video)` stores the match set
on the record. -/
def buildSubtitle (v : Video) (item : FindItem) : Except PyExc OpenSubtitlesComSubtitle :=
  match item.files with
  | [] => Except.error (PyExc.indexError "list index out of range")
  | f :: _ =>
      let s : OpenSubtitlesComSubtitle :=
        { language := item.language,
          hearing_impaired := item.hearing_impaired,
          hash := none,
          page_link := item.url,
          file_id := f.id,
          releases := item.release,
          release_info := item.release,
          uploader := item.uploaderName,
          title := item.movieName,
          year := v.year,
          season := if v.isEpisode then item.seasonNumber else none,
          episodeNum := if v.isEpisode then item.episodeNumber else none,
          download_link := none,
          matchesSet := none,
          encoding := "utf-8",
          content := none }
      Except.ok { s with matchesSet := some (get_matches s v) }

/-- The `for item in result[...]` loop of `query` (source lines 202-219):
entries whose `type` is `"subtitle"` are built and scored in order; an
exception raised while building aborts the whole call. -/
def processItems (v : Video) : List FindItem → Except PyExc (List OpenSubtitlesComSubtitle)
  | [] => Except.ok []
  | item :: rest =>
      if item.type = "subtitle" then
        match buildSubtitle v item with
        | Except.error e => Except.error e
        | Except.ok s =>
            match processItems v rest with
            | Except.error e => Except.error e
            | Except.ok tl => Except.ok (s :: tl)
      else processItems v rest

/-- Observable outcome of one `query` call: the provider's `hash` field
after the call, whether the find request was issued, and the returned
subtitle list (or the exception that aborted the call). -/
structure QueryOutcome where
  newHash : Option String
  findRequested : Bool
  result : Except PyExc (List OpenSubtitlesComSubtitle)

/-- `OpenSubtitlesComProvider.query` (source lines 174-221): updates
`self.hash` from the video's hash mapping when `use_hash` is set, then
resolves a title id via `search_titles` over `searchData` (the parsed
search response).  An exception raised inside `search_titles` (the
`TypeError` of its logging when `video.year` is `None`) propagates out of
`query`.  When `search_titles` returns a falsy id the call returns `[]` at
once (`if not title_id: return []`) — issuing no find request and building
no record.  Otherwise it issues the find request (the requested language
tags are joined into the request's parameters and do not affect the parsed
`findData` handed to us) and builds one scored record per `"subtitle"`
entry. -/
def query (use_hash : Bool) (priorHash videoHash : Option String) (v : Video)
    (langs : List String) (searchData : List TitleEntry) (findData : List FindItem) :
    QueryOutcome :=
  let newHash := if use_hash then videoHash else priorHash
  match search_titles v.queryTitle v.year searchData with
  | Except.error e =>
      { newHash := newHash, findRequested := false, result := Except.error e }
  | Except.ok title_id =>
      if strOptTruthy title_id = false then
        { newHash := newHash, findRequested := false, result := Except.ok [] }
      else
        { newHash := newHash, findRequested := true, result := processItems v findData }

/-- Concrete movie used by the witnesses. -/
def sampleMovie : Video :=
  Video.movie "Foo" (some 2021) "grp" "720p" "web"

/-- Concrete episode used by the witnesses. -/
def sampleEpisode : Video :=
  Video.episode "Foo" (some 2021) (some 2) (some 3) "grp" "720p" "web"

/-- Concrete subtitle record used by the witnesses. -/
def sampleSub : OpenSubtitlesComSubtitle :=
  { title := "Foo", year := some 2021, season := some 2, episodeNum := some 3,
    releases := "Foo.S02E03.720p.WEB", release_info := "Foo.S02E03.720p.WEB",
    language := "en", hearing_impaired := false, file_id := "99",
    page_link := "https://example.org/s", download_link := none, uploader := "up",
    matchesSet := none, hash := none, encoding := "utf-8", content := none }

/-- Concrete search response entry used by the witnesses. -/
def sampleSearchData : List TitleEntry :=
  [TitleEntry.mk "7" "Foo" 2021]

/-- Concrete find response entry used by the witnesses. -/
def sampleFindItem : FindItem :=
  { type := "subtitle", language := "en", hearing_impaired := false,
    url := "https://example.org/p", files := [FindFile.mk "99"],
    release := "Foo.2021.720p.WEB", uploaderName := "up", movieName := "Foo",
    seasonNumber := none, episodeNumber := none }

/-- The record `buildSubtitle` produces for `sampleMovie` and
`sampleFindItem`, before scoring. -/
def sampleBase : OpenSubtitlesComSubtitle :=
  { language := "en", hearing_impaired := false, hash := none,
    page_link := "https://example.org/p", file_id := "99",
    releases := "Foo.2021.720p.WEB", release_info := "Foo.2021.720p.WEB",
    uploader := "up", title := "Foo", year := sampleMovie.year,
    season := none, episodeNum := none, download_link := none,
    matchesSet := none, encoding := "utf-8", content := none }

/-- The scored record `query` returns for the sample inputs. -/
def sampleBuilt : OpenSubtitlesComSubtitle :=
  { sampleBase with matchesSet := some (get_matches sampleBase sampleMovie) }

/-- Concrete provider state with a cached token, used by the witnesses. -/
def sampleState : ProviderState :=
  { token := some "tok", authHeader := some "tok", username := "user", password := "pw",
    use_hash := true, hash := none }

/-- The first entry of `data` satisfying the search condition is what the
loop of `search_titles` stops on: `searchLoop` returns its id. -/
theorem searchLoop_eq_find (title : String) (vy : Option Int) (data : List TitleEntry) :
    searchLoop title vy data = (data.find? (titleYearMatch title vy)).map TitleEntry.id := by
  induction data with
  | nil => rfl
  | cons e rest ih =>
      by_cases h : titleYearMatch title vy e
      · simp [searchLoop, List.find?_cons_of_pos, h]
      · simp only [searchLoop, List.find?_cons_of_neg _ h, if_neg h, ih]

/-- A year-less video matches no search entry: the Python comparison
`None == int(...)` is false for every entry. -/
theorem titleYearMatch_none (title : String) (e : TitleEntry) :
    titleYearMatch title none e = false := by
  have h : (none == some e.year) = false := rfl
  simp [titleYearMatch, h]

/-- With a year-less video the search loop never assigns a title id. -/
theorem searchLoop_none_year (title : String) (data : List TitleEntry) :
    searchLoop title none data = none := by
  induction data with
  | nil => rfl
  | cons e rest ih => simp [searchLoop, titleYearMatch_none, ih]

/-- C1: on an HTTP 401 response, `login` constructs and raises
`AuthenticationError` carrying the reason phrase, but the `return False` in
the `finally` clause discards the in-flight exception, so the caller
observes the return value `False` and no error; on HTTP 200 with body
containing token `"abc"`, the token `"abc"` is cached. -/
theorem C1_login_401 :
    (loginBody none (NetResult.resp 401 "Unauthorized" LoginJson.invalid)).pending
        = PendingOutcome.exc (PyExc.authenticationError "Login failed: Unauthorized")
  ∧ (login none (NetResult.resp 401 "Unauthorized" LoginJson.invalid)).pending
        = PendingOutcome.ret false
  ∧ (login none (NetResult.resp 200 "OK" (LoginJson.withToken "abc"))).token = some "abc" :=
  ⟨rfl, rfl, rfl⟩

/-- C2: on a network-level failure no response object is bound, so the
`except` handler raises `UnboundLocalError` (it evaluates `r.status_code`
with `r` unbound) instead of the intended `ServiceUnavailable`, and the
`finally` clause's `return False` discards even that, so the caller
observes the return value `False` and no error. -/
theorem C2_login_network_failure :
    (loginBody none NetResult.netError).pending
        = PendingOutcome.exc (PyExc.unboundLocalError "r")
  ∧ (login none NetResult.netError).pending = PendingOutcome.ret false
  ∧ (login none NetResult.netError).token = none :=
  ⟨rfl, rfl, rfl⟩

/-- C3 (counterexample): on the 401 failure path the raised authentication
error does not propagate to the caller — the final outcome of `login` is
the return value `False`, not the exception. -/
theorem C3_counterexample :
    (login none (NetResult.resp 401 "Unauthorized" LoginJson.invalid)).pending
        ≠ PendingOutcome.exc (PyExc.authenticationError "Login failed: Unauthorized")
  ∧ (login none (NetResult.resp 401 "Unauthorized" LoginJson.invalid)).pending
        = PendingOutcome.ret false := by
  exact ⟨by decide, rfl⟩

/-- C3 (amended): every call to `login`, on every path — success or
failure — yields the return value `False` to the caller; the errors raised
on the failure paths are discarded by the unconditional `return False` in
the `finally` clause, so the return value (together with the token cached
on the 200 path) is the only observable outcome. -/
theorem C3_login_always_false (tok : Option String) (r : NetResult) :
    (login tok r).pending = PendingOutcome.ret false :=
  rfl

/-- C4 (counterexample): two concrete inputs defeat the claim.  First, an
entry whose id is the empty string: it is the first (only) entry matching
the query title case-insensitively with the exact year, yet
`search_titles` does not return its id — the truthiness check
`if title_id:` makes it fall through to no match.  Second, a year-less
video with an entry satisfying neither condition: the claim says no match
is returned, but the `finally` clause's logging evaluates `'%d' % None`
and the function raises `TypeError` instead. -/
theorem C4_counterexample :
    ([TitleEntry.mk "" "Foo" 2021].find? (titleYearMatch "Foo" (some 2021))
        = some (TitleEntry.mk "" "Foo" 2021)
      ∧ search_titles "Foo" (some 2021) [TitleEntry.mk "" "Foo" 2021]
          ≠ Except.ok (some ""))
  ∧ ([TitleEntry.mk "1" "Foo" 2021].find? (titleYearMatch "Foo" none) = none
      ∧ search_titles "Foo" none [TitleEntry.mk "1" "Foo" 2021]
          = Except.error (PyExc.typeError "%d format: a number is required, not NoneType")) := by
  decide

/-- C4 (amended): when the video's year is present, `search_titles`
returns the id of the first entry of the parsed data array whose title
equals the query title case-insensitively and whose year equals the
video's year exactly, provided that id is truthy (non-empty); when that id
is empty, or when no entry satisfies both conditions, it returns no match.
When the video's year is absent (`None`), no entry can satisfy the year
equality and the `finally` clause's logging raises `TypeError` instead of
returning no match. -/
theorem C4_search_titles (title : String) (y : Int) (data : List TitleEntry) :
    (∀ e, data.find? (titleYearMatch title (some y)) = some e → e.id ≠ "" →
        search_titles title (some y) data = Except.ok (some e.id))
  ∧ (∀ e, data.find? (titleYearMatch title (some y)) = some e → e.id = "" →
        search_titles title (some y) data = Except.ok none)
  ∧ (data.find? (titleYearMatch title (some y)) = none →
        search_titles title (some y) data = Except.ok none)
  ∧ search_titles title none data
      = Except.error (PyExc.typeError "%d format: a number is required, not NoneType") := by
  refine ⟨?_, ?_, ?_, ?_⟩
  · intro e he hid
    simp [search_titles, searchLoop_eq_find, he, strOptTruthy, bne_iff_ne, hid]
  · intro e he hid
    simp [search_titles, searchLoop_eq_find, he, strOptTruthy, hid]
  · intro h
    simp [search_titles, searchLoop_eq_find, h, strOptTruthy]
  · simp [search_titles, searchLoop_none_year, strOptTruthy]

/-- C4 witness: the spec's concrete example — two entries titled "Foo"
with years 2020 and 2021, query ("Foo", year 2021) — returns id "2". -/
theorem C4_witness :
    search_titles "Foo" (some 2021)
        [TitleEntry.mk "1" "Foo" 2020, TitleEntry.mk "2" "Foo" 2021]
      = Except.ok (some "2") :=
  (C4_search_titles "Foo" 2021
      [TitleEntry.mk "1" "Foo" 2020, TitleEntry.mk "2" "Foo" 2021]).1
    (TitleEntry.mk "2" "Foo" 2021) (by decide) (by decide)

/-- Membership in a conditional insert of a different tag passes through. -/
theorem mem_ite_insert_of_ne (t a : String) (c : Prop) [Decidable c] (m : Finset String)
    (h : t ≠ a) : (t ∈ if c then insert a m else m) ↔ t ∈ m := by
  split_ifs <;> simp [Finset.mem_insert, h]

/-- Membership in a conditional insert of the same tag, absent below, is
the condition itself. -/
theorem mem_ite_insert_self (t : String) (c : Prop) [Decidable c] (m : Finset String)
    (h : t ∉ m) : (t ∈ if c then insert t m else m) ↔ c := by
  split_ifs with hc <;> simp [Finset.mem_insert, h, hc]

/-- The modelled guessed matches only contribute format tags. -/
theorem mem_guess_matches (v : Video) (rel t : String) (ht : t ∈ guess_matches v rel) :
    t = "resolution" ∨ t = "source" := by
  unfold guess_matches at ht
  split_ifs at ht <;>
    simp only [Finset.mem_insert, Finset.not_mem_empty, or_false] at ht <;> tauto

/-- An identity tag (series, title, year, season, episode) is never among
the guessed matches. -/
theorem identity_tag_not_guessed (v : Video) (rel t : String)
    (h1 : t ≠ "resolution") (h2 : t ≠ "source") : t ∉ guess_matches v rel := by
  intro h
  rcases mem_guess_matches v rel t h with h3 | h3
  · exact h1 h3
  · exact h2 h3

/-- An episode video always gets the series tag. -/
theorem series_mem_get_matches (s : OpenSubtitlesComSubtitle) (v : Video)
    (h : v.isEpisode = true) : "series" ∈ get_matches s v := by
  cases v with
  | episode a y se ep rg r sr =>
      simp only [get_matches]
      rw [Finset.mem_union]
      left
      split_ifs <;> simp [Finset.mem_insert]
  | movie t y rg r sr => simp [Video.isEpisode] at h

/-- A movie video always gets the title tag. -/
theorem title_mem_get_matches (s : OpenSubtitlesComSubtitle) (v : Video)
    (h : v.isEpisode = false) : "title" ∈ get_matches s v := by
  cases v with
  | episode a y se ep rg r sr => simp [Video.isEpisode] at h
  | movie t y rg r sr =>
      simp only [get_matches]
      rw [Finset.mem_union]
      left
      split_ifs <;> simp [Finset.mem_insert]

/-- The year tag is present exactly when the video's year equals the
subtitle record's year (for both movies and episodes). -/
theorem year_mem_get_matches (s : OpenSubtitlesComSubtitle) (v : Video) :
    ("year" ∈ get_matches s v) ↔ v.year = s.year := by
  have hg : "year" ∉ guess_matches v s.releases :=
    identity_tag_not_guessed v s.releases "year" (by decide) (by decide)
  cases v with
  | episode a y se ep rg r sr =>
      simp only [get_matches, Video.year]
      rw [Finset.mem_union, or_iff_left hg,
        mem_ite_insert_of_ne _ _ _ _ (by decide), mem_ite_insert_of_ne _ _ _ _ (by decide),
        mem_ite_insert_of_ne _ _ _ _ (by decide), mem_ite_insert_of_ne _ _ _ _ (by decide),
        mem_ite_insert_of_ne _ _ _ _ (by decide), mem_ite_insert_self _ _ _ (by decide)]
  | movie t y rg r sr =>
      simp only [get_matches, Video.year]
      rw [Finset.mem_union, or_iff_left hg,
        mem_ite_insert_of_ne _ _ _ _ (by decide), mem_ite_insert_of_ne _ _ _ _ (by decide),
        mem_ite_insert_of_ne _ _ _ _ (by decide), mem_ite_insert_self _ _ _ (by decide)]

/-- For an episode, the season tag is present exactly when the video's
season equals the subtitle record's season. -/
theorem season_mem_get_matches (s : OpenSubtitlesComSubtitle) (v : Video)
    (h : v.isEpisode = true) : ("season" ∈ get_matches s v) ↔ v.season = s.season := by
  have hg : "season" ∉ guess_matches v s.releases :=
    identity_tag_not_guessed v s.releases "season" (by decide) (by decide)
  cases v with
  | episode a y se ep rg r sr =>
      simp only [get_matches, Video.season]
      rw [Finset.mem_union, or_iff_left hg,
        mem_ite_insert_of_ne _ _ _ _ (by decide), mem_ite_insert_of_ne _ _ _ _ (by decide),
        mem_ite_insert_of_ne _ _ _ _ (by decide), mem_ite_insert_of_ne _ _ _ _ (by decide),
        mem_ite_insert_self _ _ _ ?_]
      rw [mem_ite_insert_of_ne _ _ _ _ (by decide)]
      simp
  | movie t y rg r sr => simp [Video.isEpisode] at h

/-- For an episode, the episode tag is present exactly when the video's
episode number equals the subtitle record's episode number. -/
theorem episode_mem_get_matches (s : OpenSubtitlesComSubtitle) (v : Video)
    (h : v.isEpisode = true) : ("episode" ∈ get_matches s v) ↔ v.episodeNum = s.episodeNum := by
  have hg : "episode" ∉ guess_matches v s.releases :=
    identity_tag_not_guessed v s.releases "episode" (by decide) (by decide)
  cases v with
  | episode a y se ep rg r sr =>
      simp only [get_matches, Video.episodeNum]
      rw [Finset.mem_union, or_iff_left hg,
        mem_ite_insert_of_ne _ _ _ _ (by decide), mem_ite_insert_of_ne _ _ _ _ (by decide),
        mem_ite_insert_of_ne _ _ _ _ (by decide),
        mem_ite_insert_self _ _ _ ?_]
      rw [mem_ite_insert_of_ne _ _ _ _ (by decide), mem_ite_insert_of_ne _ _ _ _ (by decide)]
      simp
  | movie t y rg r sr => simp [Video.isEpisode] at h

/-- C6: an episode video's match set always contains the series tag and a
movie's always contains the title tag; the year tag is present iff the
record's year equals the video's year (checked for both kinds), and for
episodes the season and episode tags are present iff the record's
corresponding field equals the video's. -/
theorem C6_get_matches_tags (s : OpenSubtitlesComSubtitle) (v : Video) :
    (v.isEpisode = true → "series" ∈ get_matches s v)
  ∧ (v.isEpisode = false → "title" ∈ get_matches s v)
  ∧ (("year" ∈ get_matches s v) ↔ v.year = s.year)
  ∧ (v.isEpisode = true → (("season" ∈ get_matches s v) ↔ v.season = s.season))
  ∧ (v.isEpisode = true → (("episode" ∈ get_matches s v) ↔ v.episodeNum = s.episodeNum)) :=
  ⟨series_mem_get_matches s v, title_mem_get_matches s v, year_mem_get_matches s v,
   season_mem_get_matches s v, episode_mem_get_matches s v⟩

/-- C6 witness: the sample episode always matches on series (and its season
tag tracks season equality), the sample movie always matches on title. -/
theorem C6_witness :
    "series" ∈ get_matches sampleSub sampleEpisode
  ∧ "title" ∈ get_matches sampleSub sampleMovie
  ∧ (("season" ∈ get_matches sampleSub sampleEpisode) ↔
        sampleEpisode.season = sampleSub.season) :=
  ⟨(C6_get_matches_tags sampleSub sampleEpisode).1 rfl,
   (C6_get_matches_tags sampleSub sampleMovie).2.1 rfl,
   (C6_get_matches_tags sampleSub sampleEpisode).2.2.2.1 rfl⟩

/-- C7: after `download_subtitle`, a non-empty fetched body is stored as
the record's content with line endings normalized, and an empty body
leaves the content field as it was (unset for records built by `query`);
the method returns no value, so the record is the observable outcome. -/
theorem C7_download_content (sub : OpenSubtitlesComSubtitle) (link body : String) :
    (body ≠ "" → (download_subtitle sub link body).content = some (fix_line_ending body))
  ∧ (body = "" → (download_subtitle sub link body).content = sub.content) := by
  constructor
  · intro h
    simp [download_subtitle, bne_iff_ne, h]
  · intro h
    subst h
    simp [download_subtitle]

/-- C7 witness: a CRLF body is stored normalized; an empty body leaves the
sample record's content unset. -/
theorem C7_witness :
    (download_subtitle sampleSub "https://dl.example.org/f" "a\r\nb").content = some "a\nb"
  ∧ (download_subtitle sampleSub "https://dl.example.org/f" "").content = none :=
  ⟨((C7_download_content sampleSub "https://dl.example.org/f" "a\r\nb").1
      (by decide)).trans (by decide),
   ((C7_download_content sampleSub "https://dl.example.org/f" "").2 rfl).trans rfl⟩

/-- C8: whenever a token is already cached (truthy), `initialize` returns
immediately: `login` is not called and the provider state — token, session
headers, credentials, hash — is unchanged. -/
theorem C8_initProvider_idempotent (st : ProviderState) (net : NetResult)
    (h : strOptTruthy st.token = true) :
    initProvider st net = (st, false) := by
  simp [initProvider, h]

/-- C8 witness: a state with cached token "tok" is returned untouched and
no login happens, even when the network would fail. -/
theorem C8_witness : initProvider sampleState NetResult.netError = (sampleState, false) :=
  C8_initProvider_idempotent sampleState NetResult.netError (by decide)

/-- C9: constructing the provider with the username or the password missing
(absent or empty) raises a configuration error; with both supplied,
construction succeeds and stores the credentials. -/
theorem C9_provider_credentials (u p : Option String) (uh : Bool) :
    ((strOptTruthy u = false ∨ strOptTruthy p = false) →
        providerInit u p uh
          = Except.error (PyExc.configurationError "Username and password must be specified"))
  ∧ (strOptTruthy u = true → strOptTruthy p = true →
        providerInit u p uh
          = Except.ok { token := none, authHeader := none, username := u.getD "",
                        password := p.getD "", use_hash := uh, hash := none }) := by
  constructor
  · rintro (h | h) <;> simp [providerInit, h]
  · intro hu hp
    simp [providerInit, hu, hp]

/-- C9 witness: a missing username fails with the configuration error; both
credentials supplied succeed and are stored. -/
theorem C9_witness :
    providerInit none (some "pw") true
        = Except.error (PyExc.configurationError "Username and password must be specified")
  ∧ providerInit (some "user") (some "pw") true
        = Except.ok { token := none, authHeader := none, username := "user",
                      password := "pw", use_hash := true, hash := none } :=
  ⟨(C9_provider_credentials none (some "pw") true).1 (Or.inl rfl),
   (C9_provider_credentials (some "user") (some "pw") true).2 rfl rfl⟩

/-- C5: when `search_titles` yields no title id (it returns `None` rather
than raising), `query` returns the empty list immediately, issuing no find
request and building no record. -/
theorem C5_query_no_title (use_hash : Bool) (ph vh : Option String) (v : Video)
    (langs : List String) (sd : List TitleEntry) (fd : List FindItem)
    (h : search_titles v.queryTitle v.year sd = Except.ok none) :
    (query use_hash ph vh v langs sd fd).findRequested = false
  ∧ (query use_hash ph vh v langs sd fd).result = Except.ok [] := by
  constructor <;> simp [query, h, strOptTruthy]

/-- C5 witness: with an empty search response the sample movie's query
returns no subtitles and issues no find request. -/
theorem C5_witness :
    (query true none none sampleMovie [] [] []).findRequested = false
  ∧ (query true none none sampleMovie [] [] []).result = Except.ok [] :=
  C5_query_no_title true none none sampleMovie [] [] [] rfl

/-- Every record built by `buildSubtitle` carries the video's own year and
a stored match set containing the year tag. -/
theorem buildSubtitle_year (v : Video) (item : FindItem) (s : OpenSubtitlesComSubtitle)
    (h : buildSubtitle v item = Except.ok s) :
    s.year = v.year ∧ ∃ m, s.matchesSet = some m ∧ "year" ∈ m := by
  rcases hfiles : item.files with _ | ⟨f, tl⟩ <;> unfold buildSubtitle at h <;>
    rw [hfiles] at h
  · simp at h
  · injection h with h
    subst h
    refine ⟨rfl, get_matches _ v, rfl, ?_⟩
    exact (year_mem_get_matches _ v).mpr rfl

/-- Every record produced by the find-response loop carries the video's
year and a match set containing the year tag. -/
theorem processItems_year (v : Video) (items : List FindItem)
    (subs : List OpenSubtitlesComSubtitle) (h : processItems v items = Except.ok subs) :
    ∀ s ∈ subs, s.year = v.year ∧ ∃ m, s.matchesSet = some m ∧ "year" ∈ m := by
  induction items generalizing subs with
  | nil =>
      unfold processItems at h
      injection h with h
      subst h
      intro s hs
      simp at hs
  | cons item rest ih =>
      unfold processItems at h
      by_cases ht : item.type = "subtitle"
      · rw [if_pos ht] at h
        cases hb : buildSubtitle v item with
        | error e => rw [hb] at h; simp at h
        | ok s0 =>
            rw [hb] at h
            cases hr : processItems v rest with
            | error e => rw [hr] at h; simp at h
            | ok tl =>
                rw [hr] at h
                injection h with h
                subst h
                intro s hs
                rcases List.mem_cons.mp hs with rfl | hs2
                · exact buildSubtitle_year v item s hb
                · exact ih tl hr s hs2
      · rw [if_neg ht] at h
        exact ih subs h

/-- C10: every subtitle record constructed by `query` has its year field
set to the video's own year, so after the scoring `query` performs on each
record, the stored match set always contains the year tag, for every entry
the server returns. -/
theorem C10_query_year (use_hash : Bool) (ph vh : Option String) (v : Video)
    (langs : List String) (sd : List TitleEntry) (fd : List FindItem)
    (subs : List OpenSubtitlesComSubtitle)
    (h : (query use_hash ph vh v langs sd fd).result = Except.ok subs) :
    ∀ s ∈ subs, s.year = v.year ∧ ∃ m, s.matchesSet = some m ∧ "year" ∈ m := by
  cases hs : search_titles v.queryTitle v.year sd with
  | error e =>
      have h2 : (query use_hash ph vh v langs sd fd).result = Except.error e := by
        simp [query, hs]
      rw [h2] at h
      simp at h
  | ok title_id =>
      by_cases hc : strOptTruthy title_id = false
      · have h2 : (query use_hash ph vh v langs sd fd).result = Except.ok [] := by
          simp [query, hs, hc]
        rw [h2] at h
        injection h with h
        subst h
        intro s hs2
        simp at hs2
      · have h2 : (query use_hash ph vh v langs sd fd).result = processItems v fd := by
          simp [query, hs, hc]
        rw [h2] at h
        exact processItems_year v fd subs h

/-- C10 witness: the record built for the sample movie from the sample find
response carries the movie's year and a match set containing the year
tag. -/
theorem C10_witness :
    sampleBuilt.year = sampleMovie.year
  ∧ ∃ m, sampleBuilt.matchesSet = some m ∧ "year" ∈ m :=
  C10_query_year true none none sampleMovie [] sampleSearchData [sampleFindItem]
    [sampleBuilt] rfl sampleBuilt (List.mem_singleton.mpr rfl)
